import Mathlib

/-!
Shallow embedding of `certbot/lock_file.py`: a UNIX advisory file lock.

The Python module is sequential code that calls into the OS
(`os.open`, `fcntl.lockf`, `os.stat`, `os.fstat`, `os.close`,
`os.remove`).  We embed it by making every OS call's outcome an input:
an environment record supplies, for each loop iteration of `acquire`,
the result each OS call would return, and the Lean functions reproduce
the Python control flow (the `try`/`except`/`finally` structure and the
`while` loop) over those outcomes.  File descriptors are natural
numbers, errno values are integers, and a `stat` result is the
(st_dev, st_ino) pair the code actually inspects.
-/

namespace LockFileModel

/-- Linux errno for "permission denied" (`errno.EACCES`). -/
def EACCES : Int := 13

/-- Linux errno for "resource temporarily unavailable" (`errno.EAGAIN`). -/
def EAGAIN : Int := 11

/-- Linux errno for "no such file or directory" (`errno.ENOENT`). -/
def ENOENT : Int := 2

/-- The fields of a `stat` result that the module reads: device id and
inode number. -/
structure Stat where
  st_dev : Nat
  st_ino : Nat
deriving DecidableEq, Repr

/-- `_is_same_file(stat1, stat2)`: do the two stat records refer to the
same file?  Direct translation of
`stat1.st_dev == stat2.st_dev and stat1.st_ino == stat2.st_ino`. -/
def _is_same_file (stat1 stat2 : Stat) : Bool :=
  stat1.st_dev == stat2.st_dev && stat1.st_ino == stat2.st_ino

/-- Exceptions the Python code can raise: `errors.LockError`,
an `IOError` carrying an errno (raised by `fcntl.lockf`), or an
`OSError` carrying an errno (raised by `os.open`/`os.stat`/`os.fstat`). -/
inductive PyExc
  | lockError
  | ioErr (errno : Int)
  | osErr (errno : Int)
deriving DecidableEq, Repr

/-- Outcomes the OS delivers to one iteration of `acquire`'s
`while` loop: what `os.open` returns (a fresh descriptor, or an
`OSError` errno), whether `fcntl.lockf` succeeds (`none`) or raises an
`IOError` with the given errno, what `os.stat(self._path)` returns, and
what `os.fstat(fd)` returns. -/
structure IterEnv where
  openResult : Except Int Nat
  lockfErr : Option Int
  statPath : Except Int Stat
  fstatRes : Except Int Stat
deriving Repr

/-- What one iteration of the loop body does: keep the descriptor and
leave the loop (`self._fd = fd`), close the descriptor and loop again,
propagate an `OSError` from `os.open` itself (no descriptor was
created), or raise an exception after the `finally` block closed the
descriptor. -/
inductive StepResult
  | retained (fd : Nat)
  | restart (fd : Nat)
  | openFailed (errno : Int)
  | raisedClosing (e : PyExc) (fd : Nat)
deriving DecidableEq, Repr

/-- One iteration of the `while self._fd is None` loop body in
`LockFile.acquire`, translated clause by clause:
open; `lockf` with the contention errnos turned into `LockError` and
every other errno re-raised; `os.stat(self._path)` with `ENOENT`
absorbed (skip the `else`, so `self._fd` stays `None` and the
`finally` closes `fd`) and every other errno re-raised;
`os.fstat(fd)`; `_is_same_file` deciding whether the descriptor is
retained; the `finally` block closing `fd` whenever it was not
retained. -/
def stepIter (env : IterEnv) : StepResult :=
  match env.openResult with
  | .error e => .openFailed e
  | .ok fd =>
      match env.lockfErr with
      | some e =>
          if e = EACCES ∨ e = EAGAIN then
            .raisedClosing .lockError fd
          else
            .raisedClosing (.ioErr e) fd
      | none =>
          match env.statPath with
          | .error e =>
              if e ≠ ENOENT then .raisedClosing (.osErr e) fd
              else .restart fd
          | .ok stat1 =>
              match env.fstatRes with
              | .error e => .raisedClosing (.osErr e) fd
              | .ok stat2 =>
                  if _is_same_file stat1 stat2 then .retained fd
                  else .restart fd

/-- How `acquire`'s loop can end: normal return with `self._fd = fd`,
or an exception propagating to the caller. -/
inductive LoopResult
  | success (fd : Nat)
  | raised (e : PyExc)
deriving DecidableEq, Repr

/-- A finished run of `acquire`'s loop: its result, every descriptor
`os.open` returned during the run (in order), and every descriptor
`os.close` was called on (in order). -/
structure AcqRun where
  result : LoopResult
  opened : List Nat
  closed : List Nat
deriving DecidableEq, Repr

/-- The `while self._fd is None` loop of `LockFile.acquire`, driven by
a finite schedule of OS outcomes, one entry per iteration.  `none`
means the schedule ran out before the loop finished. -/
def acquireLoop : List IterEnv → Option AcqRun
  | [] => none
  | env :: rest =>
      match stepIter env with
      | .retained fd => some ⟨.success fd, [fd], []⟩
      | .restart fd =>
          (acquireLoop rest).map fun r =>
            ⟨r.result, fd :: r.opened, fd :: r.closed⟩
      | .openFailed e => some ⟨.raised (.osErr e), [], []⟩
      | .raisedClosing e fd => some ⟨.raised e, [fd], [fd]⟩

/-- The mutable state of a `LockFile` instance: `self._fd`. -/
structure LockState where
  fd : Option Nat
deriving DecidableEq, Repr

/-- What a call to `LockFile.acquire` on an instance does: the
exception it raises if any, and the descriptors opened and closed
during the call. -/
structure AcquireOutcome where
  error : Option PyExc
  opened : List Nat
  closed : List Nat
deriving DecidableEq, Repr

/-- `LockFile.acquire`: if `self._fd` is already set the `while`
condition is false and the method returns at once; otherwise the loop
runs until it retains a descriptor or raises. -/
def LockFile.acquire (s : LockState) (envs : List IterEnv) :
    Option (LockState × AcquireOutcome) :=
  match s.fd with
  | some _ => some (s, ⟨none, [], []⟩)
  | none =>
      (acquireLoop envs).map fun r =>
        match r.result with
        | .success fd => (⟨some fd⟩, ⟨none, r.opened, r.closed⟩)
        | .raised e => (⟨none⟩, ⟨some e, r.opened, r.closed⟩)

/-- The filesystem operations `LockFile.release` performs, in the
order it performs them: `os.remove(self._path)`, `os.close(self._fd)`,
and the assignment `self._fd = None`. -/
inductive FsOp
  | removeOp
  | closeOp (fd : Option Nat)
  | clearOp
deriving DecidableEq, Repr

/-- Outcomes the OS delivers to one call of `release`: whether
`os.remove` raises an `OSError` (with which errno) and whether
`os.close` does. -/
structure ReleaseEnv where
  removeErr : Option Int
  closeErr : Option Int
deriving Repr

/-- Python `try: body finally: fin` over straight-line blocks, each
summarised as (exception raised if any, operations executed): the
`finally` block always runs after the body, and an exception raised in
the `finally` block replaces the body's pending exception; otherwise
the body's exception (if any) propagates. -/
def pyFinally (body fin : Option Int × List FsOp) :
    Option Int × List FsOp :=
  (match fin.1 with
   | some e => some e
   | none => body.1,
   body.2 ++ fin.2)

/-- Effect of one `release` operation on the instance state: only the
assignment `self._fd = None` touches it. -/
def applyOp (s : LockState) : FsOp → LockState
  | .clearOp => ⟨none⟩
  | .removeOp => s
  | .closeOp _ => s

/-- Run a list of `release` operations over the instance state. -/
def applyOps (s : LockState) (ops : List FsOp) : LockState :=
  ops.foldl applyOp s

/-- `LockFile.release`, translated from its nested `try`/`finally`:
`os.remove(self._path)` with a `finally` that runs
`os.close(self._fd)` with a `finally` of `self._fd = None`.  Returns
the errno that propagates to the caller (if any) and the operations
executed, in order. -/
def LockFile.release (env : ReleaseEnv) (s : LockState) :
    Option Int × List FsOp :=
  pyFinally (env.removeErr, [FsOp.removeOp])
    (pyFinally (env.closeErr, [FsOp.closeOp s.fd]) (none, [FsOp.clearOp]))

/-- The exception triple Python passes to `__exit__`: we only record
whether an exception is being propagated out of the `with` body and
which one. -/
structure ExcInfo where
  exc : Option PyExc
deriving DecidableEq, Repr

/-- `LockFile.__enter__`: its body is exactly `self.acquire()`. -/
def LockFile.enterScope (s : LockState) (envs : List IterEnv) :
    Option (LockState × AcquireOutcome) :=
  LockFile.acquire s envs

/-- `LockFile.__exit__(self, exc_type, exc_value, traceback)`: its
body is exactly `self.release()`; the exception information is
ignored. -/
def LockFile.exitScope (_info : ExcInfo) (env : ReleaseEnv)
    (s : LockState) : Option Int × List FsOp :=
  LockFile.release env s

/-- Result of running `with lock: body`: the exception propagating out
of the whole statement (if any), the `release` operations executed,
and the final instance state. -/
structure WithResult where
  exc : Option PyExc
  releaseOps : List FsOp
  state : LockState
deriving DecidableEq, Repr

/-- Python `with` statement semantics over a `LockFile`: `__enter__`
(i.e. `acquire`) runs first; if it raises, neither the body nor
`__exit__` runs.  Otherwise the body runs (raising `bodyExc` if that
is `some`), then `__exit__` (i.e. `release`) runs unconditionally;
because `__exit__` returns `None`, a body exception is never
suppressed, and an exception raised inside `release` replaces it. -/
def withLock (s : LockState) (aEnvs : List IterEnv) (rEnv : ReleaseEnv)
    (bodyExc : Option PyExc) : Option WithResult :=
  (LockFile.acquire s aEnvs).map fun p =>
    match p.2.error with
    | some e => ⟨some e, [], p.1⟩
    | none =>
        let r := LockFile.exitScope ⟨bodyExc⟩ rEnv p.1
        ⟨(match r.1 with
          | some e => some (PyExc.osErr e)
          | none => bodyExc),
         r.2, applyOps p.1 r.2⟩

/-- Linux `O_CREAT` flag (octal 0100). -/
def O_CREAT : Nat := 64

/-- Linux `O_WRONLY` flag. -/
def O_WRONLY : Nat := 1

/-- Linux `O_TRUNC` flag (octal 01000). -/
def O_TRUNC : Nat := 512

/-- Linux `O_ACCMODE` mask selecting the access mode bits. -/
def O_ACCMODE : Nat := 3

/-- The flags `acquire` passes to `os.open`:
`os.O_CREAT | os.O_WRONLY`. -/
def openFlags : Nat := O_CREAT ||| O_WRONLY

/-- The file-creation mode `acquire` passes to `os.open`: `0666`
(octal). -/
def openMode : Nat := 438

/-- Linux errno for "bad file descriptor" (`EBADF`). -/
def EBADF : Int := 9

/-- Modelled from the spec: the OS-side state behind the per-iteration
outcomes, needed for the cross-process mutual-exclusion property.  The
spec describes the primitive as an "exclusive, non-blocking,
per-descriptor advisory lock" on the single lock file at the path:
`file` is the identity of the file currently at the lock path (if
any), `holder` the process currently holding the advisory lock on it,
`openFiles` the table of open descriptors with the identity each
refers to, and `nextFd`/`nextIno` fresh-name counters. -/
structure OSState where
  file : Option Stat
  holder : Option Nat
  openFiles : List (Nat × Stat)
  nextFd : Nat
  nextIno : Nat
deriving DecidableEq, Repr

/-- Modelled from the spec: `os.open(path, O_CREAT | O_WRONLY, 0666)`
against the OS state — open the file at the path, creating a fresh
file (new inode) if the path is empty, and return a fresh
descriptor. -/
def osOpenCreate (os : OSState) : Nat × OSState :=
  match os.file with
  | some st =>
      (os.nextFd,
       { os with openFiles := (os.nextFd, st) :: os.openFiles,
                 nextFd := os.nextFd + 1 })
  | none =>
      let st : Stat := ⟨0, os.nextIno⟩
      (os.nextFd,
       { os with file := some st,
                 openFiles := (os.nextFd, st) :: os.openFiles,
                 nextFd := os.nextFd + 1,
                 nextIno := os.nextIno + 1 })

/-- Modelled from the spec: `fcntl.lockf(fd, LOCK_EX | LOCK_NB)` — the
exclusive non-blocking advisory lock succeeds if the lock is free (or
already held by the same process) and fails immediately with a
would-block errno (`EAGAIN`) when another process holds it. -/
def osLockf (pid : Nat) (os : OSState) : Except Int OSState :=
  match os.holder with
  | some q => if q = pid then .ok os else .error EAGAIN
  | none => .ok { os with holder := some pid }

/-- Modelled from the spec: `os.stat(path)` — the identity of the file
currently at the path, or `ENOENT` if there is none. -/
def osStatPath (os : OSState) : Except Int Stat :=
  match os.file with
  | some st => .ok st
  | none => .error ENOENT

/-- Modelled from the spec: `os.fstat(fd)` — the identity of the file
the open descriptor refers to. -/
def osFstat (fd : Nat) (os : OSState) : Except Int Stat :=
  match os.openFiles.find? (fun p => p.1 == fd) with
  | some p => .ok p.2
  | none => .error EBADF

/-- Modelled from the spec: `os.close(fd)` — remove the descriptor
from the open-descriptor table. -/
def osClose (fd : Nat) (os : OSState) : OSState :=
  { os with openFiles := os.openFiles.filter (fun p => p.1 != fd) }

/-- The OS outcomes one uninterfered iteration of `acquire`'s loop
observes when run by process `pid` against OS state `os`, together
with the OS state after the open and lock attempt.  The program logic
itself is still `stepIter`, translated from the source; this only
instantiates its environment. -/
def osIterEnv (pid : Nat) (os : OSState) : IterEnv × OSState :=
  let p := osOpenCreate os
  let fd := p.1
  let os1 := p.2
  match osLockf pid os1 with
  | .error e =>
      (⟨.ok fd, some e, osStatPath os1, osFstat fd os1⟩, os1)
  | .ok os2 =>
      (⟨.ok fd, none, osStatPath os2, osFstat fd os2⟩, os2)

/-- `LockFile.acquire`'s loop run by process `pid` directly against
the OS model, with fuel bounding the number of iterations; each
iteration's behaviour is decided by `stepIter` on the OS-provided
outcomes, and a descriptor not retained is closed. -/
def osAcquire (pid : Nat) : Nat → OSState → Option (LoopResult × OSState)
  | 0, _ => none
  | fuel + 1, os =>
      let p := osIterEnv pid os
      let os1 := p.2
      match stepIter p.1 with
      | .retained fd => some (.success fd, os1)
      | .restart fd => osAcquire pid fuel (osClose fd os1)
      | .openFailed e => some (.raised (.osErr e), os1)
      | .raisedClosing e fd => some (.raised e, osClose fd os1)

/-- Process `pid` holds the lock with descriptor `fd`: it is the
advisory-lock holder, the lock file exists, and `fd` is an open
descriptor referring to that same file.  This is the state a
successful `acquire` leaves behind. -/
def holdsLock (pid fd : Nat) (os : OSState) : Prop :=
  os.holder = some pid ∧ ∃ st, os.file = some st ∧ (fd, st) ∈ os.openFiles

/-! ## Helper lemmas -/

/-- Inversion: a loop iteration retains its descriptor only when the
open succeeded with that descriptor, the lock was taken, both stats
succeeded, and the two identities matched. -/
lemma stepIter_retained_inv (env : IterEnv) (fd : Nat)
    (h : stepIter env = .retained fd) :
    env.openResult = .ok fd ∧ env.lockfErr = none ∧
      ∃ s1 s2, env.statPath = .ok s1 ∧ env.fstatRes = .ok s2 ∧
        _is_same_file s1 s2 = true := by
  unfold stepIter at h
  rcases hopen : env.openResult with e | fd0 <;> rw [hopen] at h
  · cases h
  rcases hlk : env.lockfErr with _ | e <;> rw [hlk] at h
  · rcases hstat : env.statPath with e | s1 <;> rw [hstat] at h
    · by_cases he : e ≠ ENOENT <;> simp [he] at h
    · rcases hfst : env.fstatRes with e | s2 <;> rw [hfst] at h
      · cases h
      · by_cases hsame : _is_same_file s1 s2 <;> simp [hsame] at h
        subst h
        exact ⟨rfl, rfl, s1, s2, rfl, rfl, hsame⟩
  · by_cases he : e = EACCES ∨ e = EAGAIN <;> simp [he] at h

/-! ## Claim theorems -/

/-- C7: `_is_same_file` is a pure function of its two stat arguments,
returning `true` exactly when the device ids are equal and the inode
numbers are equal. -/
theorem is_same_file_iff (s1 s2 : Stat) :
    _is_same_file s1 s2 = true ↔
      s1.st_dev = s2.st_dev ∧ s1.st_ino = s2.st_ino := by
  simp [_is_same_file]

/-- C9: the open step uses `O_CREAT` (create if missing) with access
mode `O_WRONLY` (write-only), does not set `O_TRUNC` (no truncation of
an existing file), and the creation mode `0666` has the owner, group
and world write bits set. -/
theorem open_flags_spec :
    openFlags &&& O_CREAT = O_CREAT ∧
    openFlags &&& O_ACCMODE = O_WRONLY ∧
    openFlags &&& O_TRUNC = 0 ∧
    openMode &&& 128 = 128 ∧ openMode &&& 16 = 16 ∧
    openMode &&& 2 = 2 := by decide

/-- C1: when the non-blocking lock attempt fails, a contention errno
(`EACCES` or `EAGAIN`) makes `acquire` raise `LockError` at once —
one iteration only, no retry, the descriptor closed — and any other
errno propagates as the original `IOError`, also terminally.  The
result does not depend on the rest of the schedule, so no retry or
wait happens in either case. -/
theorem lock_contention_terminal (env : IterEnv) (rest : List IterEnv)
    (fd : Nat) (e : Int)
    (hopen : env.openResult = .ok fd) (hlk : env.lockfErr = some e) :
    (e = EACCES ∨ e = EAGAIN →
      acquireLoop (env :: rest) =
        some ⟨.raised .lockError, [fd], [fd]⟩) ∧
    (¬(e = EACCES ∨ e = EAGAIN) →
      acquireLoop (env :: rest) =
        some ⟨.raised (.ioErr e), [fd], [fd]⟩) := by
  constructor <;> intro hcase <;>
    simp [acquireLoop, stepIter, hopen, hlk, hcase]

/-- Witness for C1 at a concrete schedule: `EACCES` contention on
descriptor 3 raises `LockError` immediately. -/
theorem lock_contention_terminal_witness :
    acquireLoop [⟨.ok 3, some 13, .error 2, .error 2⟩] =
      some ⟨.raised .lockError, [3], [3]⟩ :=
  (lock_contention_terminal ⟨.ok 3, some 13, .error 2, .error 2⟩ [] 3 13
    rfl rfl).1 (Or.inl rfl)

/-- C3: after the lock is taken, the re-stat of the path failing with
`ENOENT` is absorbed — the descriptor is closed and the loop restarts
on the remaining schedule with no error contributed by this
iteration — while a stat failure with any other errno propagates as a
fatal `OSError`, with the descriptor closed. -/
theorem stat_enoent_absorbed (env : IterEnv) (rest : List IterEnv)
    (fd : Nat) (e : Int)
    (hopen : env.openResult = .ok fd) (hlk : env.lockfErr = none)
    (hstat : env.statPath = .error e) :
    (e = ENOENT →
      acquireLoop (env :: rest) =
        (acquireLoop rest).map fun r =>
          ⟨r.result, fd :: r.opened, fd :: r.closed⟩) ∧
    (e ≠ ENOENT →
      acquireLoop (env :: rest) =
        some ⟨.raised (.osErr e), [fd], [fd]⟩) := by
  constructor <;> intro hcase <;>
    simp [acquireLoop, stepIter, hopen, hlk, hstat, hcase]

/-- Witness for C3 at a concrete schedule: `ENOENT` on the re-stat
restarts the loop, which then succeeds on the next iteration, with the
first descriptor closed. -/
theorem stat_enoent_absorbed_witness :
    acquireLoop [⟨.ok 1, none, .error 2, .error 2⟩,
                 ⟨.ok 2, none, .ok ⟨5, 7⟩, .ok ⟨5, 7⟩⟩] =
      (acquireLoop [⟨.ok 2, none, .ok ⟨5, 7⟩, .ok ⟨5, 7⟩⟩]).map fun r =>
        ⟨r.result, 1 :: r.opened, 1 :: r.closed⟩ :=
  (stat_enoent_absorbed ⟨.ok 1, none, .error 2, .error 2⟩
    [⟨.ok 2, none, .ok ⟨5, 7⟩, .ok ⟨5, 7⟩⟩] 1 2 rfl rfl rfl).1 rfl

/-- C10: calling `acquire` on an instance whose `_fd` is already set
returns at once — the `while` guard is false, so no filesystem
operation runs, no error is raised, and the state is unchanged. -/
theorem acquire_already_locked_noop (s : LockState) (envs : List IterEnv)
    (f : Nat) (h : s.fd = some f) :
    LockFile.acquire s envs = some (s, ⟨none, [], []⟩) := by
  cases s
  cases h
  rfl

/-- Witness for C10: acquiring a locked instance (descriptor 4) is a
no-op for any schedule, here a schedule that would otherwise raise. -/
theorem acquire_already_locked_noop_witness :
    LockFile.acquire ⟨some 4⟩ [⟨.ok 3, some 13, .error 2, .error 2⟩] =
      some (⟨some 4⟩, ⟨none, [], []⟩) :=
  acquire_already_locked_noop ⟨some 4⟩
    [⟨.ok 3, some 13, .error 2, .error 2⟩] 4 rfl

/-- C4: `release` performs, in order and unconditionally, the removal
of the path, the close of the held handle, and the clearing of
`_fd` — the close and clear execute even when the removal raises — and
the error it propagates is the close error when the close fails, else
the removal error; after the executed operations the state is
unlocked. -/
theorem release_always_cleans (env : ReleaseEnv) (s : LockState) :
    LockFile.release env s =
      ((match env.closeErr with
        | some e => some e
        | none => env.removeErr),
       [FsOp.removeOp, FsOp.closeOp s.fd, FsOp.clearOp]) ∧
    applyOps s (LockFile.release env s).2 = ⟨none⟩ := by
  cases s
  rcases env with ⟨re, ce⟩
  cases ce <;> simp [LockFile.release, pyFinally, applyOps, applyOp]

/-- C5: every loop iteration that does not retain its descriptor
closes it: on a successful run, the opened descriptors are exactly the
closed ones followed by the one retained descriptor (so exactly one
remains open); on a raising run, every opened descriptor was
closed. -/
theorem no_descriptor_leak (envs : List IterEnv) (r : AcqRun)
    (h : acquireLoop envs = some r) :
    (∀ fd, r.result = .success fd → r.opened = r.closed ++ [fd]) ∧
    (∀ e, r.result = .raised e → r.opened = r.closed) := by
  induction envs generalizing r with
  | nil => cases h
  | cons env rest ih =>
      rw [acquireLoop] at h
      rcases hstep : stepIter env with fd | fd | e | ⟨e, fd⟩ <;> rw [hstep] at h
      · cases h
        refine ⟨fun fd2 hres => ?_, fun e2 hres => by cases hres⟩
        cases hres
        rfl
      · rcases Option.map_eq_some'.mp h with ⟨r0, hr0, hmap⟩
        subst hmap
        rcases ih r0 hr0 with ⟨ih1, ih2⟩
        refine ⟨fun fd2 hres => ?_, fun e2 hres => ?_⟩
        · simp only at hres ⊢
          rw [ih1 fd2 hres]
          rfl
        · simp only at hres ⊢
          rw [ih2 e2 hres]
      · cases h
        exact ⟨fun fd2 hres => (nomatch hres), fun e2 hres => rfl⟩
      · cases h
        exact ⟨fun fd2 hres => (nomatch hres), fun e2 hres => rfl⟩

/-- Witness for C5: one ENOENT-restart iteration (descriptor 1) then a
successful one (descriptor 2): opened = closed ++ [retained]. -/
theorem no_descriptor_leak_witness :
    ∃ r, acquireLoop [⟨.ok 1, none, .error 2, .error 2⟩,
                      ⟨.ok 2, none, .ok ⟨5, 7⟩, .ok ⟨5, 7⟩⟩] = some r ∧
      r.opened = r.closed ++ [2] :=
  ⟨⟨.success 2, [1, 2], [1]⟩, rfl,
   (no_descriptor_leak
      [⟨.ok 1, none, .error 2, .error 2⟩,
       ⟨.ok 2, none, .ok ⟨5, 7⟩, .ok ⟨5, 7⟩⟩]
      ⟨.success 2, [1, 2], [1]⟩ rfl).1 2 rfl⟩

/-- C2: a run of `acquire`'s loop that returns successfully did so
from an iteration whose path-stat and handle-fstat identities were
compared by `_is_same_file` and matched; and an iteration whose two
identities differ restarts the loop (closing the descriptor) rather
than retaining the handle. -/
theorem success_identity_validated :
    (∀ envs r fd, acquireLoop envs = some r → r.result = .success fd →
      ∃ env ∈ envs, env.openResult = .ok fd ∧ env.lockfErr = none ∧
        ∃ s1 s2, env.statPath = .ok s1 ∧ env.fstatRes = .ok s2 ∧
          _is_same_file s1 s2 = true) ∧
    (∀ env fd s1 s2, env.openResult = .ok fd → env.lockfErr = none →
      env.statPath = .ok s1 → env.fstatRes = .ok s2 →
      _is_same_file s1 s2 = false → stepIter env = .restart fd) := by
  constructor
  · intro envs
    induction envs with
    | nil => intro r fd h _; cases h
    | cons env rest ih =>
        intro r fd h hres
        rw [acquireLoop] at h
        rcases hstep : stepIter env with fd0 | fd0 | e | ⟨e, fd0⟩ <;>
          rw [hstep] at h
        · cases h
          cases hres
          rcases stepIter_retained_inv env _ hstep with
            ⟨h1, h2, s1, s2, h3, h4, h5⟩
          exact ⟨env, List.mem_cons_self _ _, h1, h2, s1, s2, h3, h4, h5⟩
        · rcases Option.map_eq_some'.mp h with ⟨r0, hr0, hmap⟩
          subst hmap
          simp only at hres
          rcases ih r0 fd hr0 hres with ⟨env2, hmem, rest2⟩
          exact ⟨env2, List.mem_cons_of_mem _ hmem, rest2⟩
        · cases h; cases hres
        · cases h; cases hres
  · intro env fd s1 s2 hopen hlk hstat hfst hsame
    simp [stepIter, hopen, hlk, hstat, hfst, hsame]

/-- Witness for C2: a successful one-iteration run whose identities
match, and a concrete mismatching iteration that restarts. -/
theorem success_identity_validated_witness :
    (∃ env ∈ [(⟨.ok 2, none, .ok ⟨5, 7⟩, .ok ⟨5, 7⟩⟩ : IterEnv)],
      env.openResult = .ok 2 ∧ env.lockfErr = none ∧
        ∃ s1 s2, env.statPath = .ok s1 ∧ env.fstatRes = .ok s2 ∧
          _is_same_file s1 s2 = true) ∧
    stepIter ⟨.ok 9, none, .ok ⟨1, 1⟩, .ok ⟨1, 2⟩⟩ = .restart 9 :=
  ⟨success_identity_validated.1 [⟨.ok 2, none, .ok ⟨5, 7⟩, .ok ⟨5, 7⟩⟩]
      ⟨.success 2, [2], []⟩ 2 rfl rfl,
   success_identity_validated.2 ⟨.ok 9, none, .ok ⟨1, 1⟩, .ok ⟨1, 2⟩⟩
      9 ⟨1, 1⟩ ⟨1, 2⟩ rfl rfl rfl rfl rfl⟩

/-- C8: `__enter__` is exactly `acquire`; `__exit__` is exactly
`release`, independent of the exception information it receives; and
in the `with` form, whenever `acquire` succeeds, `release` runs on
every exit path — for every body outcome, including a raising body,
the executed operations are `release`'s operations. -/
theorem scoped_enter_exit :
    (∀ s envs, LockFile.enterScope s envs = LockFile.acquire s envs) ∧
    (∀ i1 i2 rEnv s, LockFile.exitScope i1 rEnv s = LockFile.release rEnv s ∧
      LockFile.exitScope i1 rEnv s = LockFile.exitScope i2 rEnv s) ∧
    (∀ s aEnvs rEnv bodyExc s1 out,
      LockFile.acquire s aEnvs = some (s1, out) → out.error = none →
      withLock s aEnvs rEnv bodyExc =
        some ⟨(match (LockFile.release rEnv s1).1 with
               | some e => some (PyExc.osErr e)
               | none => bodyExc),
              (LockFile.release rEnv s1).2,
              applyOps s1 (LockFile.release rEnv s1).2⟩) := by
  refine ⟨fun s envs => rfl, fun i1 i2 rEnv s => ⟨rfl, rfl⟩, ?_⟩
  intro s aEnvs rEnv bodyExc s1 out h herr
  rcases out with ⟨oerr, oop, ocl⟩
  simp only at herr
  subst herr
  simp [withLock, h, LockFile.exitScope]

/-- Witness for C8: a successful acquisition followed by a raising
body still executes the release operations. -/
theorem scoped_enter_exit_witness :
    withLock ⟨none⟩ [⟨.ok 2, none, .ok ⟨5, 7⟩, .ok ⟨5, 7⟩⟩]
        ⟨some 5, none⟩ (some PyExc.lockError) =
      some ⟨(match (LockFile.release ⟨some 5, none⟩ ⟨some 2⟩).1 with
             | some e => some (PyExc.osErr e)
             | none => some PyExc.lockError),
            (LockFile.release ⟨some 5, none⟩ ⟨some 2⟩).2,
            applyOps ⟨some 2⟩ (LockFile.release ⟨some 5, none⟩ ⟨some 2⟩).2⟩ :=
  scoped_enter_exit.2.2 ⟨none⟩ [⟨.ok 2, none, .ok ⟨5, 7⟩, .ok ⟨5, 7⟩⟩]
    ⟨some 5, none⟩ (some PyExc.lockError) ⟨some 2⟩ ⟨none, [2], []⟩ rfl rfl

/-- Descriptors below the fresh-descriptor bound are untouched when a
fresh descriptor is closed. -/
lemma filter_ne_of_lt (l : List (Nat × Stat)) (n : Nat)
    (h : ∀ p ∈ l, p.1 < n) : l.filter (fun p => p.1 != n) = l := by
  induction l with
  | nil => rfl
  | cons a l ih =>
      have ha : a.1 ≠ n := Nat.ne_of_lt (h a (List.mem_cons_self a l))
      simp [List.filter_cons, ha,
            ih fun p hp => h p (List.mem_cons_of_mem a hp)]

/-- C6: mutual exclusion across processes.  If process `a` holds the
lock (acquired, not yet released) and a different process `b` runs
`acquire` on the same path, `b`'s attempt raises `LockError`, and the
holder, the lock file, and the open-descriptor table — in particular
`a`'s held descriptor — are unchanged. -/
theorem mutual_exclusion (os : OSState) (a b fdA : Nat) (fuel : Nat)
    (hold : holdsLock a fdA os) (hne : b ≠ a)
    (hwf : ∀ p ∈ os.openFiles, p.1 < os.nextFd) :
    ∃ os2, osAcquire b (fuel + 1) os =
        some (.raised .lockError, os2) ∧
      os2.holder = os.holder ∧ os2.file = os.file ∧
      os2.openFiles = os.openFiles := by
  rcases hold with ⟨hholder, st, hfile, _⟩
  rcases os with ⟨file, holder, ofs, nfd, nino⟩
  simp only at hholder hfile hwf
  subst hholder
  subst hfile
  have hab : ¬(a = b) := fun hcontra => hne hcontra.symm
  have hfil : List.filter (fun p => p.1 != nfd) ofs = ofs :=
    filter_ne_of_lt ofs nfd hwf
  refine ⟨⟨some st, some a, ofs, nfd + 1, nino⟩, ?_, rfl, rfl, rfl⟩
  simp [osAcquire, osIterEnv, osOpenCreate, osLockf, osClose, stepIter,
        hab, hfil, EACCES, EAGAIN]

/-- Witness for C6: process 0 holds the lock with descriptor 5;
process 1's acquisition attempt raises `LockError` and leaves the
holder state intact. -/
theorem mutual_exclusion_witness :
    ∃ os2, osAcquire 1 1 ⟨some ⟨0, 1⟩, some 0, [(5, ⟨0, 1⟩)], 6, 2⟩ =
        some (.raised .lockError, os2) ∧
      os2.holder = some 0 ∧ os2.file = some ⟨0, 1⟩ ∧
      os2.openFiles = [(5, ⟨0, 1⟩)] :=
  mutual_exclusion ⟨some ⟨0, 1⟩, some 0, [(5, ⟨0, 1⟩)], 6, 2⟩ 0 1 5 0
    ⟨rfl, ⟨0, 1⟩, rfl, List.mem_cons_self _ _⟩ (by decide)
    (by intro p hp; simp at hp; subst hp; decide)

end LockFileModel

